import Mathlib

/-!
# The `container` command of slsa-provenance

A shallow embedding of `cmd/slsa-provenance/cli/container.go`: the `RunE`
closure of the command built by `OCI()`.

The closure is orchestration code.  It calls seven option getters, constructs
a Docker client, builds a subject resolver, asks the GitHub environment for a
provenance statement, appends the extra materials and persists the result.
The packages it calls (`options`, `lib/github`, `lib/oci`, `lib/intoto`, the
Docker client) are not part of the embedded source, so their behaviour is
taken as a parameter: every call is a field of a record, and every call the
closure makes is written to a log of steps, in the order the source makes it.
The closure itself checks no material: line 72 is a plain append.  The check
of a batch of extra materials the spec describes is modelled, from the spec,
as part of the getter that supplies the batch (`options.GetExtraMaterials`).
-/

namespace SlsaProvenance

/-! ## Go errors -/

/-- A Go `error` value: a plain error carrying its message, or the value
`fmt.Errorf` builds for a `%w` verb, which carries its message and the error
it wraps. -/
inductive GoError where
  | errorString (msg : String)
  | wrapError (msg : String) (err : GoError)
deriving DecidableEq, Repr

/-- The method `Error()` of a Go error: its message. -/
def GoError.Error : GoError → String
  | .errorString msg => msg
  | .wrapError msg _ => msg

/-- The method `Unwrap()` as `errors.Unwrap` sees it: the wrapped error, if
there is one. -/
def GoError.Unwrap : GoError → Option GoError
  | .errorString _ => none
  | .wrapError _ err => some err

/-- The call `fmt.Errorf(lead + "%w", err)`: the message is the text before
the verb followed by the message of `err`, and the result wraps `err`. -/
def Errorf (lead : String) (err : GoError) : GoError :=
  .wrapError (lead ++ err.Error) err

/-! ## The statement (package `lib/intoto`, not part of the embedded source) -/

/-- Modelled from the spec: the `Digest` of the data model, a mapping from
hash-algorithm name to hex digest, kept as the list of its entries. -/
abbrev DigestSet := List (String × String)

/-- Modelled from the spec: the `Subject` of the data model. -/
structure Subject where
  name : String
  digest : DigestSet
deriving DecidableEq, Repr

/-- Modelled from the spec: the `Material` of the data model, the element type
of `stmt.Predicate.Materials` and of the list `GetExtraMaterials` returns. -/
structure Material where
  uri : String
  digest : DigestSet
deriving DecidableEq, Repr

/-- Modelled from the spec: the `Builder` of the data model. -/
structure Builder where
  id : String
deriving DecidableEq, Repr

/-- Modelled from the spec: the `configSource` of an `Invocation`. -/
structure ConfigSource where
  uri : String
  digest : DigestSet
  entryPoint : String
deriving DecidableEq, Repr

/-- Modelled from the spec: the `Invocation` of the data model; the two
mappings are kept as lists of entries. -/
structure Invocation where
  configSource : ConfigSource
  parameters : List (String × String)
  environment : List (String × String)
deriving DecidableEq, Repr

/-- Modelled from the spec: the `metadata` of a `Predicate`. -/
structure Metadata where
  buildInvocationID : String
  completeness : List (String × Bool)
  reproducible : Bool
deriving DecidableEq, Repr

/-- Modelled from the spec: the `Predicate` of the data model.  The field the
source names, `Materials`, keeps the source's spelling. -/
structure Predicate where
  builder : Builder
  buildType : String
  invocation : Invocation
  Materials : List Material
  metadata : Metadata
deriving DecidableEq, Repr

/-- Modelled from the spec: the `Statement` of the data model.  The field the
source names, `Predicate`, keeps the source's spelling. -/
structure Statement where
  type : String
  predicateType : String
  subject : List Subject
  Predicate : Predicate
deriving DecidableEq, Repr

/-! ## The collaborators of the command -/

/-- The options object `o` of the command, as the closure sees it: the result
of each of its seven getters.  The package `options` is not part of the
embedded source, so the results are parameters. -/
structure OCIOptions (GitHubContext RunnerContext : Type) where
  GetOutputPath : Except GoError String
  GetGitHubContext : Except GoError GitHubContext
  GetRunnerContext : Except GoError RunnerContext
  GetExtraMaterials : Except GoError (List Material)
  GetRepository : Except GoError String
  GetDigest : Except GoError String
  GetTags : Except GoError (List String)

/-- The value `&github.Environment{Context: gh, Runner: runner}`. -/
structure Environment (GitHubContext RunnerContext : Type) where
  Context : GitHubContext
  Runner : RunnerContext
deriving DecidableEq, Repr

/-- The `*cobra.Command` the closure receives, as far as the closure reads it:
`cmd.Context()`.  What is written to `cmd.OutOrStdout()` is recorded in the
log of the run. -/
structure Command (GoContext : Type) where
  Context : GoContext

/-- The functions the closure calls outside the options object:
`client.NewClientWithOpts(client.FromEnv, client.WithAPIVersionNegotiation())`,
`oci.NewContainerSubjecter`, and the two methods of `github.Environment`.
None of them is part of the embedded source; each is a parameter. -/
structure Collaborators (Client Subjecter GitHubContext RunnerContext GoContext : Type) where
  NewClientWithOpts : Except GoError Client
  NewContainerSubjecter : Client → String → String → List String → Subjecter
  GenerateProvenanceStatement :
    Environment GitHubContext RunnerContext → GoContext → Subjecter → Except GoError Statement
  PersistProvenanceStatement :
    Environment GitHubContext RunnerContext → GoContext → Statement → String → Option GoError

/-- One step of a run of the closure: a call it makes, or the assignment that
appends the extra materials, with the arguments it is made with. -/
inductive Step (Client Subjecter GitHubContext RunnerContext GoContext : Type) where
  | GetOutputPath
  | GetGitHubContext
  | GetRunnerContext
  | GetExtraMaterials
  | GetRepository
  | GetDigest
  | GetTags
  | NewClientWithOpts
  | NewContainerSubjecter (cli : Client) (repo digest : String) (tags : List String)
  | GenerateProvenanceStatement (env : Environment GitHubContext RunnerContext)
      (ctx : GoContext) (subjecter : Subjecter)
  | append (dst : List Material) (materials : List Material)
  | Fprintf (text : String)
  | PersistProvenanceStatement (env : Environment GitHubContext RunnerContext)
      (ctx : GoContext) (stmt : Statement) (outputPath : String)
deriving DecidableEq, Repr

/-- What a run of the closure amounts to: the error it returns (`none` is
Go's `nil`) and the steps it performed, in order. -/
structure Run (Client Subjecter GitHubContext RunnerContext GoContext : Type) where
  err : Option GoError
  steps : List (Step Client Subjecter GitHubContext RunnerContext GoContext)

section RunE

variable {Client Subjecter GitHubContext RunnerContext GoContext : Type}

/-- The closure `RunE` of the command `OCI()` builds
(`container.go`, lines 21 to 77), statement by statement.  Each `if err != nil`
is a match on the result of the call before it; a Go slice is a list, so that
`append(a, b...)` is `a ++ b`; the pointer `stmt` is the value it points to. -/
def RunE (o : OCIOptions GitHubContext RunnerContext)
    (x : Collaborators Client Subjecter GitHubContext RunnerContext GoContext)
    (cmd : Command GoContext) :
    Run Client Subjecter GitHubContext RunnerContext GoContext :=
  match o.GetOutputPath with
  | .error err => ⟨some err, [.GetOutputPath]⟩
  | .ok outputPath =>
  match o.GetGitHubContext with
  | .error err => ⟨some err, [.GetOutputPath, .GetGitHubContext]⟩
  | .ok gh =>
  match o.GetRunnerContext with
  | .error err => ⟨some err, [.GetOutputPath, .GetGitHubContext, .GetRunnerContext]⟩
  | .ok runner =>
  match o.GetExtraMaterials with
  | .error err =>
    ⟨some err, [.GetOutputPath, .GetGitHubContext, .GetRunnerContext, .GetExtraMaterials]⟩
  | .ok materials =>
  match o.GetRepository with
  | .error err =>
    ⟨some err, [.GetOutputPath, .GetGitHubContext, .GetRunnerContext, .GetExtraMaterials,
      .GetRepository]⟩
  | .ok repo =>
  match o.GetDigest with
  | .error err =>
    ⟨some err, [.GetOutputPath, .GetGitHubContext, .GetRunnerContext, .GetExtraMaterials,
      .GetRepository, .GetDigest]⟩
  | .ok digest =>
  match o.GetTags with
  | .error err =>
    ⟨some err, [.GetOutputPath, .GetGitHubContext, .GetRunnerContext, .GetExtraMaterials,
      .GetRepository, .GetDigest, .GetTags]⟩
  | .ok tags =>
  match x.NewClientWithOpts with
  | .error err =>
    ⟨some err, [.GetOutputPath, .GetGitHubContext, .GetRunnerContext, .GetExtraMaterials,
      .GetRepository, .GetDigest, .GetTags, .NewClientWithOpts]⟩
  | .ok cli =>
  let subjecter := x.NewContainerSubjecter cli repo digest tags
  let env : Environment GitHubContext RunnerContext := { Context := gh, Runner := runner }
  match x.GenerateProvenanceStatement env cmd.Context subjecter with
  | .error err =>
    ⟨some (Errorf "failed to generate provenance: " err),
      [.GetOutputPath, .GetGitHubContext, .GetRunnerContext, .GetExtraMaterials,
        .GetRepository, .GetDigest, .GetTags, .NewClientWithOpts,
        .NewContainerSubjecter cli repo digest tags,
        .GenerateProvenanceStatement env cmd.Context subjecter]⟩
  | .ok generated =>
  let stmt : Statement :=
    { generated with Predicate := { generated.Predicate with
        Materials := generated.Predicate.Materials ++ materials } }
  ⟨x.PersistProvenanceStatement env cmd.Context stmt outputPath,
    [.GetOutputPath, .GetGitHubContext, .GetRunnerContext, .GetExtraMaterials,
      .GetRepository, .GetDigest, .GetTags, .NewClientWithOpts,
      .NewContainerSubjecter cli repo digest tags,
      .GenerateProvenanceStatement env cmd.Context subjecter,
      .append generated.Predicate.Materials materials,
      .Fprintf ("Saving provenance to " ++ outputPath ++ "\n"),
      .PersistProvenanceStatement env cmd.Context stmt outputPath]⟩

/-! ## Reading a run -/

/-- The calls of the persister in a run, each with its arguments. -/
def Run.persisted (r : Run Client Subjecter GitHubContext RunnerContext GoContext) :
    List (Environment GitHubContext RunnerContext × GoContext × Statement × String) :=
  r.steps.filterMap fun
    | .PersistProvenanceStatement env ctx stmt outputPath => some (env, ctx, stmt, outputPath)
    | _ => none

/-- The calls of statement generation in a run, each with its arguments. -/
def Run.generations (r : Run Client Subjecter GitHubContext RunnerContext GoContext) :
    List (Environment GitHubContext RunnerContext × GoContext × Subjecter) :=
  r.steps.filterMap fun
    | .GenerateProvenanceStatement env ctx subjecter => some (env, ctx, subjecter)
    | _ => none

/-- The constructions of a subject resolver in a run, each with the arguments
the constructor receives. -/
def Run.subjecters (r : Run Client Subjecter GitHubContext RunnerContext GoContext) :
    List (Client × String × String × List String) :=
  r.steps.filterMap fun
    | .NewContainerSubjecter cli repo digest tags => some (cli, repo, digest, tags)
    | _ => none

/-- The appends to `stmt.Predicate.Materials` in a run: the list appended to
and the list appended. -/
def Run.appends (r : Run Client Subjecter GitHubContext RunnerContext GoContext) :
    List (List Material × List Material) :=
  r.steps.filterMap fun
    | .append dst materials => some (dst, materials)
    | _ => none

/-- What a run writes to the output of the command, in order. -/
def Run.output (r : Run Client Subjecter GitHubContext RunnerContext GoContext) :
    List String :=
  r.steps.filterMap fun
    | .Fprintf text => some text
    | _ => none

/-- The statement, and the statement alone, of each call of the persister. -/
def Run.persistedStatements (r : Run Client Subjecter GitHubContext RunnerContext GoContext) :
    List Statement :=
  r.persisted.map fun p => p.2.2.1

/-- The values the seven getters return when none of them fails. -/
structure OptionValues (GitHubContext RunnerContext : Type) where
  outputPath : String
  gh : GitHubContext
  runner : RunnerContext
  materials : List Material
  repo : String
  digest : String
  tags : List String

/-- Every getter of `o` succeeds, and returns the value `v` records for it. -/
def OCIOptions.returns (o : OCIOptions GitHubContext RunnerContext)
    (v : OptionValues GitHubContext RunnerContext) : Prop :=
  o.GetOutputPath = .ok v.outputPath ∧ o.GetGitHubContext = .ok v.gh ∧
  o.GetRunnerContext = .ok v.runner ∧ o.GetExtraMaterials = .ok v.materials ∧
  o.GetRepository = .ok v.repo ∧ o.GetDigest = .ok v.digest ∧ o.GetTags = .ok v.tags

/-- The environment the closure builds from the values of the options. -/
def OptionValues.env (v : OptionValues GitHubContext RunnerContext) :
    Environment GitHubContext RunnerContext :=
  { Context := v.gh, Runner := v.runner }

/-- The result of the call of statement generation the closure makes once the
getters have returned `v` and the client `cli` has been constructed. -/
def generation (x : Collaborators Client Subjecter GitHubContext RunnerContext GoContext)
    (cmd : Command GoContext) (v : OptionValues GitHubContext RunnerContext) (cli : Client) :
    Except GoError Statement :=
  x.GenerateProvenanceStatement v.env cmd.Context
    (x.NewContainerSubjecter cli v.repo v.digest v.tags)

/-- The statement `s` with `materials` appended to its materials: the value of
`stmt` after line 72. -/
def withMaterials (s : Statement) (materials : List Material) : Statement :=
  { s with Predicate := { s.Predicate with Materials := s.Predicate.Materials ++ materials } }

/-- Every step before persistence succeeds: the seven getters, the
construction of the client, and statement generation. -/
def Succeeds (o : OCIOptions GitHubContext RunnerContext)
    (x : Collaborators Client Subjecter GitHubContext RunnerContext GoContext)
    (cmd : Command GoContext) : Prop :=
  ∃ v cli s, o.returns v ∧ x.NewClientWithOpts = .ok cli ∧ generation x cmd v cli = .ok s

/-- Some step before persistence returns an error: one of the seven getters,
the construction of the client, or the call of statement generation the
closure makes. -/
def Fails (o : OCIOptions GitHubContext RunnerContext)
    (x : Collaborators Client Subjecter GitHubContext RunnerContext GoContext)
    (cmd : Command GoContext) : Prop :=
  (∃ e, o.GetOutputPath = .error e) ∨ (∃ e, o.GetGitHubContext = .error e) ∨
  (∃ e, o.GetRunnerContext = .error e) ∨ (∃ e, o.GetExtraMaterials = .error e) ∨
  (∃ e, o.GetRepository = .error e) ∨ (∃ e, o.GetDigest = .error e) ∨
  (∃ e, o.GetTags = .error e) ∨ (∃ e, x.NewClientWithOpts = .error e) ∨
  (∃ v cli e, o.returns v ∧ x.NewClientWithOpts = .ok cli ∧ generation x cmd v cli = .error e)

/-- Modelled from the spec: the getter `GetExtraMaterials` of the package
`options`, which is not part of the embedded source.  It is where a batch of
extra materials is checked before the closure appends it: every material of
the batch must satisfy the invariant of a `Material`, a non-empty uri, or the
step fails with a `MaterialError`, all or nothing; a batch that passes is
returned in the order supplied.  `materialError` is the error the check
reports and `batch` the batch the source of extra materials supplies. -/
def options.GetExtraMaterials (materialError : GoError) (batch : List Material) :
    Except GoError (List Material) :=
  if batch.all (fun m => decide (m.uri ≠ "")) then .ok batch else .error materialError

/-- The error of a result, `none` when it is a success. -/
def errorOf {α : Type} : Except GoError α → Option GoError
  | .error e => some e
  | .ok _ => none

/-- The eight steps the closure performs before it builds the subject
resolver, in the order of the source. -/
def leadingSteps : List (Step Client Subjecter GitHubContext RunnerContext GoContext) :=
  [.GetOutputPath, .GetGitHubContext, .GetRunnerContext, .GetExtraMaterials,
    .GetRepository, .GetDigest, .GetTags, .NewClientWithOpts]

/-- The error each of the eight leading steps returns, in the same order. -/
def leadingErrors (o : OCIOptions GitHubContext RunnerContext)
    (x : Collaborators Client Subjecter GitHubContext RunnerContext GoContext) :
    List (Option GoError) :=
  [errorOf o.GetOutputPath, errorOf o.GetGitHubContext, errorOf o.GetRunnerContext,
    errorOf o.GetExtraMaterials, errorOf o.GetRepository, errorOf o.GetDigest,
    errorOf o.GetTags, errorOf x.NewClientWithOpts]

/-- What the persister is handed in each of its calls, without the Go context:
the environment, the statement and the destination path. -/
def Run.handed (r : Run Client Subjecter GitHubContext RunnerContext GoContext) :
    List (Environment GitHubContext RunnerContext × Statement × String) :=
  r.persisted.map fun p => (p.1, p.2.2.1, p.2.2.2)

end RunE

/-! ## Concrete runs -/

/-- The build context and the runner context of the concrete runs: snapshots
of key and value pairs. -/
abbrev Snapshot := List (String × String)

/-- The subject resolver of the concrete runs: the record of the four
arguments its constructor received. -/
abbrev RecordedSubjecter := String × String × String × List String

/-- The material of the third end-to-end scenario. -/
def exampleMaterial : Material :=
  { uri := "git+https://example/repo", digest := [("sha256", "deadbeef...")] }

/-- A material whose uri is empty. -/
def emptyUriMaterial : Material :=
  { uri := "", digest := [("sha256", "deadbeef...")] }

/-- A generated statement for the first end-to-end scenario, its materials
empty. -/
def exampleStatement : Statement :=
  { type := "https://in-toto.io/Statement/v0.1"
    predicateType := "https://slsa.dev/provenance/v0.2"
    subject := [{ name := "registry.example/app:v1", digest := [("sha256", "abc123...")] },
      { name := "registry.example/app:latest", digest := [("sha256", "abc123...")] }]
    Predicate :=
      { builder := { id := "https://github.com/example/repo/Attestations/GitHubHostedActions@v1" }
        buildType := "https://github.com/Attestations/GitHubActionsWorkflow@v1"
        invocation :=
          { configSource :=
              { uri := "git+https://example/repo", digest := [("sha1", "0123abcd")],
                entryPoint := "build" }
            parameters := []
            environment := [("arch", "amd64")] }
        Materials := []
        metadata :=
          { buildInvocationID := "https://github.com/example/repo/actions/runs/1"
            completeness := [("parameters", true), ("environment", false), ("materials", false)]
            reproducible := false } } }

/-- The options of the first end-to-end scenario, with the extra materials
given. -/
def optionsWith (materials : List Material) : OCIOptions Snapshot Snapshot :=
  { GetOutputPath := .ok "provenance.json"
    GetGitHubContext := .ok [("repository", "example/repo"), ("run_id", "1")]
    GetRunnerContext := .ok [("os", "Linux"), ("arch", "amd64")]
    GetExtraMaterials := .ok materials
    GetRepository := .ok "registry.example/app"
    GetDigest := .ok "sha256:abc123..."
    GetTags := .ok ["v1", "latest"] }

/-- The values `optionsWith materials` returns. -/
def valuesWith (materials : List Material) : OptionValues Snapshot Snapshot :=
  { outputPath := "provenance.json"
    gh := [("repository", "example/repo"), ("run_id", "1")]
    runner := [("os", "Linux"), ("arch", "amd64")]
    materials := materials
    repo := "registry.example/app"
    digest := "sha256:abc123..."
    tags := ["v1", "latest"] }

/-- The options of the second end-to-end scenario: no digest is supplied (the
getter returns the empty string) and no extra materials are given. -/
def optionsWithoutDigest : OCIOptions Snapshot Snapshot :=
  { optionsWith [] with GetDigest := .ok "" }

/-- The values `optionsWithoutDigest` returns. -/
def valuesWithoutDigest : OptionValues Snapshot Snapshot :=
  { valuesWith [] with digest := "" }

/-- The options of the first end-to-end scenario, the source of extra
materials supplying a batch whose second material has an empty uri. -/
def optionsWithEmptyUri : OCIOptions Snapshot Snapshot :=
  { optionsWith [] with
    GetExtraMaterials := options.GetExtraMaterials
      (.errorString "material with an empty uri") [exampleMaterial, emptyUriMaterial] }

/-- Options whose getter of the repository fails; no digest is supplied. -/
def optionsWithoutRepository : OCIOptions Snapshot Snapshot :=
  { optionsWith [] with
    GetRepository := .error (.errorString "no repository set")
    GetDigest := .ok "" }

/-- Collaborators for which every call succeeds; the persister returns
`persistResult`. -/
def collaboratorsWith (persistResult : Option GoError) :
    Collaborators String RecordedSubjecter Snapshot Snapshot Unit :=
  { NewClientWithOpts := .ok "unix:///var/run/docker.sock"
    NewContainerSubjecter := fun cli repo digest tags => (cli, repo, digest, tags)
    GenerateProvenanceStatement := fun _ _ _ => .ok exampleStatement
    PersistProvenanceStatement := fun _ _ _ _ => persistResult }

/-- Collaborators that differ from `collaboratorsWith none` in one place: the
construction of the Docker client fails. -/
def collaboratorsWithoutClient :
    Collaborators String RecordedSubjecter Snapshot Snapshot Unit :=
  { collaboratorsWith none with
    NewClientWithOpts := .error (.errorString "unable to parse docker host") }

/-- Collaborators for which statement generation fails: the registry reports
that the reference is not found. -/
def collaboratorsNotFound :
    Collaborators String RecordedSubjecter Snapshot Snapshot Unit :=
  { collaboratorsWith none with
    GenerateProvenanceStatement := fun _ _ _ =>
      .error (.errorString "reference not found") }

/-- The command of the concrete runs. -/
def exampleCommand : Command Unit := { Context := () }

section Lemmas

variable {Client Subjecter GitHubContext RunnerContext GoContext : Type}

/-! ## The three ways a run ends once the getters have succeeded -/

theorem RunE_of_client_error (o : OCIOptions GitHubContext RunnerContext)
    (x : Collaborators Client Subjecter GitHubContext RunnerContext GoContext)
    (cmd : Command GoContext) (v : OptionValues GitHubContext RunnerContext) (e : GoError)
    (hv : o.returns v) (he : x.NewClientWithOpts = .error e) :
    RunE o x cmd = ⟨some e, [.GetOutputPath, .GetGitHubContext, .GetRunnerContext,
      .GetExtraMaterials, .GetRepository, .GetDigest, .GetTags, .NewClientWithOpts]⟩ := by
  obtain ⟨h1, h2, h3, h4, h5, h6, h7⟩ := hv
  simp only [RunE, h1, h2, h3, h4, h5, h6, h7, he]

theorem RunE_of_generation_error (o : OCIOptions GitHubContext RunnerContext)
    (x : Collaborators Client Subjecter GitHubContext RunnerContext GoContext)
    (cmd : Command GoContext) (v : OptionValues GitHubContext RunnerContext) (cli : Client)
    (e : GoError) (hv : o.returns v) (hc : x.NewClientWithOpts = .ok cli)
    (hg : generation x cmd v cli = .error e) :
    RunE o x cmd = ⟨some (Errorf "failed to generate provenance: " e),
      [.GetOutputPath, .GetGitHubContext, .GetRunnerContext, .GetExtraMaterials,
        .GetRepository, .GetDigest, .GetTags, .NewClientWithOpts,
        .NewContainerSubjecter cli v.repo v.digest v.tags,
        .GenerateProvenanceStatement v.env cmd.Context
          (x.NewContainerSubjecter cli v.repo v.digest v.tags)]⟩ := by
  obtain ⟨h1, h2, h3, h4, h5, h6, h7⟩ := hv
  simp only [generation, OptionValues.env] at hg
  simp only [RunE, h1, h2, h3, h4, h5, h6, h7, hc, hg, OptionValues.env]

theorem RunE_of_generation_ok (o : OCIOptions GitHubContext RunnerContext)
    (x : Collaborators Client Subjecter GitHubContext RunnerContext GoContext)
    (cmd : Command GoContext) (v : OptionValues GitHubContext RunnerContext) (cli : Client)
    (s : Statement) (hv : o.returns v) (hc : x.NewClientWithOpts = .ok cli)
    (hg : generation x cmd v cli = .ok s) :
    RunE o x cmd =
      ⟨x.PersistProvenanceStatement v.env cmd.Context (withMaterials s v.materials) v.outputPath,
      [.GetOutputPath, .GetGitHubContext, .GetRunnerContext, .GetExtraMaterials,
        .GetRepository, .GetDigest, .GetTags, .NewClientWithOpts,
        .NewContainerSubjecter cli v.repo v.digest v.tags,
        .GenerateProvenanceStatement v.env cmd.Context
          (x.NewContainerSubjecter cli v.repo v.digest v.tags),
        .append s.Predicate.Materials v.materials,
        .Fprintf ("Saving provenance to " ++ v.outputPath ++ "\n"),
        .PersistProvenanceStatement v.env cmd.Context (withMaterials s v.materials)
          v.outputPath]⟩ := by
  obtain ⟨h1, h2, h3, h4, h5, h6, h7⟩ := hv
  simp only [generation, OptionValues.env] at hg
  simp only [RunE, h1, h2, h3, h4, h5, h6, h7, hc, hg, OptionValues.env, withMaterials]

theorem GetExtraMaterials_of_empty_uri (materialError : GoError) (batch : List Material)
    (h : ∃ m ∈ batch, m.uri = "") :
    options.GetExtraMaterials materialError batch = .error materialError := by
  obtain ⟨m, hm, hu⟩ := h
  have hall : batch.all (fun m => decide (m.uri ≠ "")) = false := by
    rw [List.all_eq_false]
    exact ⟨m, hm, by simp [hu]⟩
  unfold options.GetExtraMaterials
  rw [hall]
  rfl

theorem GetExtraMaterials_of_valid (materialError : GoError) (batch : List Material)
    (h : ∀ m ∈ batch, m.uri ≠ "") :
    options.GetExtraMaterials materialError batch = .ok batch := by
  have hall : batch.all (fun m => decide (m.uri ≠ "")) = true := by
    rw [List.all_eq_true]
    intro m hm
    simpa using h m hm
  unfold options.GetExtraMaterials
  rw [hall]
  rfl

theorem optionsWith_returns (materials : List Material) :
    (optionsWith materials).returns (valuesWith materials) :=
  ⟨rfl, rfl, rfl, rfl, rfl, rfl, rfl⟩

theorem returns_unique (o : OCIOptions GitHubContext RunnerContext)
    (v w : OptionValues GitHubContext RunnerContext) (hv : o.returns v) (hw : o.returns w) :
    v = w := by
  obtain ⟨h1, h2, h3, h4, h5, h6, h7⟩ := hv
  obtain ⟨k1, k2, k3, k4, k5, k6, k7⟩ := hw
  rw [h1] at k1; rw [h2] at k2; rw [h3] at k3; rw [h4] at k4
  rw [h5] at k5; rw [h6] at k6; rw [h7] at k7
  cases v; cases w
  simp only [Except.ok.injEq] at k1 k2 k3 k4 k5 k6 k7
  simp [k1, k2, k3, k4, k5, k6, k7]

theorem leadingErrors_of_returns (o : OCIOptions GitHubContext RunnerContext)
    (x : Collaborators Client Subjecter GitHubContext RunnerContext GoContext)
    (v : OptionValues GitHubContext RunnerContext) (cli : Client)
    (hv : o.returns v) (hc : x.NewClientWithOpts = .ok cli) :
    leadingErrors o x = [none, none, none, none, none, none, none, none] := by
  obtain ⟨h1, h2, h3, h4, h5, h6, h7⟩ := hv
  simp [leadingErrors, errorOf, h1, h2, h3, h4, h5, h6, h7, hc]

theorem no_leading_error_of_returns (o : OCIOptions GitHubContext RunnerContext)
    (x : Collaborators Client Subjecter GitHubContext RunnerContext GoContext)
    (v : OptionValues GitHubContext RunnerContext) (cli : Client)
    (hv : o.returns v) (hc : x.NewClientWithOpts = .ok cli) (k : Nat) (e : GoError) :
    (leadingErrors o x)[k]? ≠ some (some e) := by
  rw [leadingErrors_of_returns o x v cli hv hc]
  intro h
  rcases k with _ | _ | _ | _ | _ | _ | _ | _ | k <;> simp at h

theorem first_error_unique (l : List (Option GoError)) (i k : Nat) (e1 e2 : GoError)
    (hi : l[i]? = some (some e1)) (hi2 : ∀ j < i, l[j]? = some none)
    (hk : l[k]? = some (some e2)) (hk2 : ∀ j < k, l[j]? = some none) :
    k = i ∧ e2 = e1 := by
  rcases Nat.lt_trichotomy k i with h | h | h
  · have := hi2 k h
    rw [hk] at this
    simp at this
  · subst h
    rw [hi] at hk
    simp at hk
    exact ⟨rfl, hk.symm⟩
  · have := hk2 i h
    rw [hi] at this
    simp at this

theorem quiet_of_leading (r : Run Client Subjecter GitHubContext RunnerContext GoContext)
    (n : Nat) (h : r.steps = leadingSteps.take n) :
    r.subjecters = [] ∧ r.generations = [] ∧ r.appends = [] ∧ r.output = [] ∧
      r.persisted = [] := by
  have hmem : ∀ s ∈ r.steps, s ∈ (leadingSteps :
      List (Step Client Subjecter GitHubContext RunnerContext GoContext)) := by
    intro s hs
    rw [h] at hs
    exact List.mem_of_mem_take hs
  simp only [Run.subjecters, Run.generations, Run.appends, Run.output, Run.persisted,
    List.filterMap_eq_nil_iff]
  refine ⟨?_, ?_, ?_, ?_, ?_⟩ <;>
  · intro s hs
    have := hmem s hs
    simp only [leadingSteps, List.mem_cons, List.mem_singleton, List.not_mem_nil,
      or_false] at this
    rcases this with h | h | h | h | h | h | h | h <;> subst h <;> rfl

/-- Every run ends in one of three ways: one of the eight leading steps is the
first to fail, and the run stops there with its error; or the leading steps
succeed and statement generation fails; or every step before persistence
succeeds. -/
theorem RunE_trichotomy (o : OCIOptions GitHubContext RunnerContext)
    (x : Collaborators Client Subjecter GitHubContext RunnerContext GoContext)
    (cmd : Command GoContext) :
    (∃ k e, (leadingErrors o x)[k]? = some (some e) ∧
        (∀ j < k, (leadingErrors o x)[j]? = some none) ∧
        (RunE o x cmd).err = some e ∧ (RunE o x cmd).steps = leadingSteps.take (k + 1)) ∨
    (∃ v cli e, o.returns v ∧ x.NewClientWithOpts = .ok cli ∧
        generation x cmd v cli = .error e) ∨
    Succeeds o x cmd := by
  rcases h1 : o.GetOutputPath with e | v1
  · refine Or.inl ⟨0, e, by simp [leadingErrors, errorOf, h1], by simp, ?_, ?_⟩
    · simp [RunE, h1]
    · simp [RunE, h1, leadingSteps]
  rcases h2 : o.GetGitHubContext with e | v2
  · refine Or.inl ⟨1, e, by simp [leadingErrors, errorOf, h2], ?_, ?_, ?_⟩
    · intro j hj
      interval_cases j
      simp [leadingErrors, errorOf, h1]
    · simp [RunE, h1, h2]
    · simp [RunE, h1, h2, leadingSteps]
  rcases h3 : o.GetRunnerContext with e | v3
  · refine Or.inl ⟨2, e, by simp [leadingErrors, errorOf, h3], ?_, ?_, ?_⟩
    · intro j hj
      interval_cases j <;> simp [leadingErrors, errorOf, h1, h2]
    · simp [RunE, h1, h2, h3]
    · simp [RunE, h1, h2, h3, leadingSteps]
  rcases h4 : o.GetExtraMaterials with e | v4
  · refine Or.inl ⟨3, e, by simp [leadingErrors, errorOf, h4], ?_, ?_, ?_⟩
    · intro j hj
      interval_cases j <;> simp [leadingErrors, errorOf, h1, h2, h3]
    · simp [RunE, h1, h2, h3, h4]
    · simp [RunE, h1, h2, h3, h4, leadingSteps]
  rcases h5 : o.GetRepository with e | v5
  · refine Or.inl ⟨4, e, by simp [leadingErrors, errorOf, h5], ?_, ?_, ?_⟩
    · intro j hj
      interval_cases j <;> simp [leadingErrors, errorOf, h1, h2, h3, h4]
    · simp [RunE, h1, h2, h3, h4, h5]
    · simp [RunE, h1, h2, h3, h4, h5, leadingSteps]
  rcases h6 : o.GetDigest with e | v6
  · refine Or.inl ⟨5, e, by simp [leadingErrors, errorOf, h6], ?_, ?_, ?_⟩
    · intro j hj
      interval_cases j <;> simp [leadingErrors, errorOf, h1, h2, h3, h4, h5]
    · simp [RunE, h1, h2, h3, h4, h5, h6]
    · simp [RunE, h1, h2, h3, h4, h5, h6, leadingSteps]
  rcases h7 : o.GetTags with e | v7
  · refine Or.inl ⟨6, e, by simp [leadingErrors, errorOf, h7], ?_, ?_, ?_⟩
    · intro j hj
      interval_cases j <;> simp [leadingErrors, errorOf, h1, h2, h3, h4, h5, h6]
    · simp [RunE, h1, h2, h3, h4, h5, h6, h7]
    · simp [RunE, h1, h2, h3, h4, h5, h6, h7, leadingSteps]
  rcases h8 : x.NewClientWithOpts with e | cli
  · refine Or.inl ⟨7, e, by simp [leadingErrors, errorOf, h8], ?_, ?_, ?_⟩
    · intro j hj
      interval_cases j <;> simp [leadingErrors, errorOf, h1, h2, h3, h4, h5, h6, h7]
    · simp [RunE, h1, h2, h3, h4, h5, h6, h7, h8]
    · simp [RunE, h1, h2, h3, h4, h5, h6, h7, h8, leadingSteps]
  have hv : o.returns ⟨v1, v2, v3, v4, v5, v6, v7⟩ := ⟨h1, h2, h3, h4, h5, h6, h7⟩
  rcases hg : generation x cmd ⟨v1, v2, v3, v4, v5, v6, v7⟩ cli with e | s
  · exact Or.inr (Or.inl ⟨_, cli, e, hv, rfl, hg⟩)
  · exact Or.inr (Or.inr ⟨_, cli, s, hv, h8, hg⟩)

theorem fails_of_leading_error (o : OCIOptions GitHubContext RunnerContext)
    (x : Collaborators Client Subjecter GitHubContext RunnerContext GoContext)
    (cmd : Command GoContext) (k : Nat) (e : GoError)
    (h : (leadingErrors o x)[k]? = some (some e)) : Fails o x cmd := by
  have herr : ∀ {α : Type} (g : Except GoError α), errorOf g = some e → g = .error e := by
    intro α g hg
    cases g with
    | error e2 => simpa [errorOf] using hg
    | ok a => simp [errorOf] at hg
  unfold Fails
  rcases k with _ | _ | _ | _ | _ | _ | _ | _ | k <;>
    simp only [leadingErrors, List.getElem?_cons_zero, List.getElem?_cons_succ,
      Option.some.injEq, List.getElem?_nil] at h
  · exact Or.inl ⟨e, herr _ h⟩
  · exact Or.inr (Or.inl ⟨e, herr _ h⟩)
  · exact Or.inr (Or.inr (Or.inl ⟨e, herr _ h⟩))
  · exact Or.inr (Or.inr (Or.inr (Or.inl ⟨e, herr _ h⟩)))
  · exact Or.inr (Or.inr (Or.inr (Or.inr (Or.inl ⟨e, herr _ h⟩))))
  · exact Or.inr (Or.inr (Or.inr (Or.inr (Or.inr (Or.inl ⟨e, herr _ h⟩)))))
  · exact Or.inr (Or.inr (Or.inr (Or.inr (Or.inr (Or.inr (Or.inl ⟨e, herr _ h⟩))))))
  · exact Or.inr (Or.inr (Or.inr (Or.inr (Or.inr (Or.inr (Or.inr (Or.inl ⟨e, herr _ h⟩)))))))
  · cases h

theorem not_fails_of_succeeds (o : OCIOptions GitHubContext RunnerContext)
    (x : Collaborators Client Subjecter GitHubContext RunnerContext GoContext)
    (cmd : Command GoContext) (hs : Succeeds o x cmd) : ¬ Fails o x cmd := by
  obtain ⟨v, cli, s, hv, hc, hg⟩ := hs
  have hv2 := hv
  obtain ⟨h1, h2, h3, h4, h5, h6, h7⟩ := hv2
  rintro (⟨e, h⟩ | ⟨e, h⟩ | ⟨e, h⟩ | ⟨e, h⟩ | ⟨e, h⟩ | ⟨e, h⟩ | ⟨e, h⟩ | ⟨e, h⟩ |
    ⟨w, c, e, hw, hc2, hg2⟩)
  · rw [h1] at h; cases h
  · rw [h2] at h; cases h
  · rw [h3] at h; cases h
  · rw [h4] at h; cases h
  · rw [h5] at h; cases h
  · rw [h6] at h; cases h
  · rw [h7] at h; cases h
  · rw [hc] at h; cases h
  · have hvw := returns_unique o v w hv hw
    subst hvw
    rw [hc] at hc2
    cases hc2
    rw [hg] at hg2
    cases hg2

theorem RunE_of_first_error (o : OCIOptions GitHubContext RunnerContext)
    (x : Collaborators Client Subjecter GitHubContext RunnerContext GoContext)
    (cmd : Command GoContext) (k : Nat) (e : GoError)
    (hk : (leadingErrors o x)[k]? = some (some e))
    (hk2 : ∀ j < k, (leadingErrors o x)[j]? = some none) :
    (RunE o x cmd).err = some e ∧ (RunE o x cmd).steps = leadingSteps.take (k + 1) := by
  rcases RunE_trichotomy o x cmd with ⟨i, e1, hi, hi2, herr, hsteps⟩ |
    ⟨v, cli, e1, hv, hc, _⟩ | ⟨v, cli, s, hv, hc, _⟩
  · obtain ⟨hki, hee⟩ := first_error_unique _ i k e1 e hi hi2 hk hk2
    subst hki
    subst hee
    exact ⟨herr, hsteps⟩
  · exact absurd hk (no_leading_error_of_returns o x v cli hv hc k e)
  · exact absurd hk (no_leading_error_of_returns o x v cli hv hc k e)

theorem options_ext (o1 o2 : OCIOptions GitHubContext RunnerContext)
    (h1 : o1.GetOutputPath = o2.GetOutputPath)
    (h2 : o1.GetGitHubContext = o2.GetGitHubContext)
    (h3 : o1.GetRunnerContext = o2.GetRunnerContext)
    (h4 : o1.GetExtraMaterials = o2.GetExtraMaterials)
    (h5 : o1.GetRepository = o2.GetRepository)
    (h6 : o1.GetDigest = o2.GetDigest)
    (h7 : o1.GetTags = o2.GetTags) : o1 = o2 := by
  cases o1
  cases o2
  simp only [OCIOptions.mk.injEq]
  exact ⟨h1, h2, h3, h4, h5, h6, h7⟩

theorem leadingErrors_congr (o : OCIOptions GitHubContext RunnerContext)
    (x1 x2 : Collaborators Client Subjecter GitHubContext RunnerContext GoContext)
    (hc : x1.NewClientWithOpts = x2.NewClientWithOpts) :
    leadingErrors o x1 = leadingErrors o x2 := by
  simp only [leadingErrors, hc]

end Lemmas

/-! ## The claims -/

section Claims

variable {Client Subjecter GitHubContext RunnerContext GoContext : Type}

/-- C1: when the getters, the construction of the client and statement
generation succeed, with generation returning `s` and the options returning
the extra materials `m`, the one statement handed to the persister has as
materials those of `s` followed by `m`, in order; in particular, when the
materials of `s` are empty and `m` is the single material of the third
scenario, the persisted materials are exactly that one entry. -/
theorem C1_persisted_materials (o : OCIOptions GitHubContext RunnerContext)
    (x : Collaborators Client Subjecter GitHubContext RunnerContext GoContext)
    (cmd : Command GoContext) (v : OptionValues GitHubContext RunnerContext) (cli : Client)
    (s : Statement) (hv : o.returns v) (hc : x.NewClientWithOpts = .ok cli)
    (hg : generation x cmd v cli = .ok s) :
    (RunE o x cmd).persistedStatements.map (fun p => p.Predicate.Materials)
      = [s.Predicate.Materials ++ v.materials] ∧
    (s.Predicate.Materials = [] → v.materials = [exampleMaterial] →
      (RunE o x cmd).persistedStatements.map (fun p => p.Predicate.Materials)
        = [[exampleMaterial]]) := by
  rw [RunE_of_generation_ok o x cmd v cli s hv hc hg]
  refine ⟨by simp [Run.persistedStatements, Run.persisted, withMaterials], ?_⟩
  intro hs hm
  simp [Run.persistedStatements, Run.persisted, withMaterials, hs, hm]

theorem C1_persisted_materials_witness :
    (optionsWith [exampleMaterial]).returns (valuesWith [exampleMaterial]) ∧
    (collaboratorsWith none).NewClientWithOpts = .ok "unix:///var/run/docker.sock" ∧
    generation (collaboratorsWith none) exampleCommand (valuesWith [exampleMaterial])
      "unix:///var/run/docker.sock" = .ok exampleStatement ∧
    (RunE (optionsWith [exampleMaterial]) (collaboratorsWith none)
      exampleCommand).persistedStatements.map (fun p => p.Predicate.Materials)
      = [[exampleMaterial]] :=
  ⟨optionsWith_returns _, rfl, rfl,
    (C1_persisted_materials (optionsWith [exampleMaterial]) (collaboratorsWith none)
      exampleCommand (valuesWith [exampleMaterial]) "unix:///var/run/docker.sock"
      exampleStatement (optionsWith_returns _) rfl rfl).2 rfl rfl⟩


/-- C4: when the getters, the construction of the client and statement
generation succeed, with generation returning `s`, the one statement handed to
the persister has the type, predicate type, subject sequence, builder, build
type, invocation and metadata of `s`: the append touches the materials only. -/
theorem C4_append_frame (o : OCIOptions GitHubContext RunnerContext)
    (x : Collaborators Client Subjecter GitHubContext RunnerContext GoContext)
    (cmd : Command GoContext) (v : OptionValues GitHubContext RunnerContext) (cli : Client)
    (s : Statement) (hv : o.returns v) (hc : x.NewClientWithOpts = .ok cli)
    (hg : generation x cmd v cli = .ok s) :
    ∃ p, (RunE o x cmd).persistedStatements = [p] ∧
      p.type = s.type ∧ p.predicateType = s.predicateType ∧ p.subject = s.subject ∧
      p.Predicate.builder = s.Predicate.builder ∧
      p.Predicate.buildType = s.Predicate.buildType ∧
      p.Predicate.invocation = s.Predicate.invocation ∧
      p.Predicate.metadata = s.Predicate.metadata := by
  rw [RunE_of_generation_ok o x cmd v cli s hv hc hg]
  exact ⟨withMaterials s v.materials, by simp [Run.persistedStatements, Run.persisted],
    rfl, rfl, rfl, rfl, rfl, rfl, rfl⟩

theorem C4_append_frame_witness :
    ∃ p, (RunE (optionsWith [exampleMaterial]) (collaboratorsWith none)
        exampleCommand).persistedStatements = [p] ∧
      p.type = exampleStatement.type ∧ p.predicateType = exampleStatement.predicateType ∧
      p.subject = exampleStatement.subject ∧
      p.Predicate.builder = exampleStatement.Predicate.builder ∧
      p.Predicate.buildType = exampleStatement.Predicate.buildType ∧
      p.Predicate.invocation = exampleStatement.Predicate.invocation ∧
      p.Predicate.metadata = exampleStatement.Predicate.metadata :=
  C4_append_frame (optionsWith [exampleMaterial]) (collaboratorsWith none) exampleCommand
    (valuesWith [exampleMaterial]) "unix:///var/run/docker.sock" exampleStatement
    (optionsWith_returns _) rfl rfl

/-- C5: when the getters, the construction of the client and statement
generation succeed, the persister is called exactly once, with the statement
after the append and the output path the options returned, and the command
returns exactly what the persister returns: nil when it returns nil, its
error when it returns one. -/
theorem C5_persisted_once (o : OCIOptions GitHubContext RunnerContext)
    (x : Collaborators Client Subjecter GitHubContext RunnerContext GoContext)
    (cmd : Command GoContext) (v : OptionValues GitHubContext RunnerContext) (cli : Client)
    (s : Statement) (hv : o.returns v) (hc : x.NewClientWithOpts = .ok cli)
    (hg : generation x cmd v cli = .ok s) :
    (RunE o x cmd).persisted
      = [(v.env, cmd.Context, withMaterials s v.materials, v.outputPath)] ∧
    (RunE o x cmd).err
      = x.PersistProvenanceStatement v.env cmd.Context (withMaterials s v.materials)
          v.outputPath ∧
    (x.PersistProvenanceStatement v.env cmd.Context (withMaterials s v.materials)
        v.outputPath = none → (RunE o x cmd).err = none) ∧
    (∀ e, x.PersistProvenanceStatement v.env cmd.Context (withMaterials s v.materials)
        v.outputPath = some e → (RunE o x cmd).err = some e) := by
  rw [RunE_of_generation_ok o x cmd v cli s hv hc hg]
  refine ⟨by simp [Run.persisted], rfl, fun h => h, fun e h => h⟩

theorem C5_persisted_once_witness :
    (RunE (optionsWith [exampleMaterial])
        (collaboratorsWith (some (.errorString "permission denied"))) exampleCommand).persisted
      = [((valuesWith [exampleMaterial]).env, (),
          withMaterials exampleStatement [exampleMaterial], "provenance.json")] ∧
    (RunE (optionsWith [exampleMaterial])
        (collaboratorsWith (some (.errorString "permission denied"))) exampleCommand).err
      = some (.errorString "permission denied") :=
  ⟨(C5_persisted_once (optionsWith [exampleMaterial])
      (collaboratorsWith (some (.errorString "permission denied"))) exampleCommand
      (valuesWith [exampleMaterial]) "unix:///var/run/docker.sock" exampleStatement
      (optionsWith_returns _) rfl rfl).1,
   (C5_persisted_once (optionsWith [exampleMaterial])
      (collaboratorsWith (some (.errorString "permission denied"))) exampleCommand
      (valuesWith [exampleMaterial]) "unix:///var/run/docker.sock" exampleStatement
      (optionsWith_returns _) rfl rfl).2.2.2 _ rfl⟩

/-- C6: when the getters and the construction of the client succeed and
statement generation fails with `e`, the command returns an error whose
message is "failed to generate provenance: " followed by the message of `e`
and which unwraps to `e`; no materials are appended, nothing is written to the
output of the command, and the persister is not called. -/
theorem C6_generation_error (o : OCIOptions GitHubContext RunnerContext)
    (x : Collaborators Client Subjecter GitHubContext RunnerContext GoContext)
    (cmd : Command GoContext) (v : OptionValues GitHubContext RunnerContext) (cli : Client)
    (e : GoError) (hv : o.returns v) (hc : x.NewClientWithOpts = .ok cli)
    (hg : generation x cmd v cli = .error e) :
    ∃ err, (RunE o x cmd).err = some err ∧
      err.Error = "failed to generate provenance: " ++ e.Error ∧
      err.Unwrap = some e ∧
      (RunE o x cmd).appends = [] ∧ (RunE o x cmd).output = [] ∧
      (RunE o x cmd).persisted = [] := by
  rw [RunE_of_generation_error o x cmd v cli e hv hc hg]
  exact ⟨Errorf "failed to generate provenance: " e, rfl, rfl, rfl,
    by simp [Run.appends], by simp [Run.output], by simp [Run.persisted]⟩

theorem C6_generation_error_witness :
    optionsWithoutDigest.GetDigest = .ok "" ∧
    ∃ err, (RunE optionsWithoutDigest collaboratorsNotFound exampleCommand).err = some err ∧
      err.Error = "failed to generate provenance: " ++
        (GoError.errorString "reference not found").Error ∧
      err.Unwrap = some (.errorString "reference not found") ∧
      (RunE optionsWithoutDigest collaboratorsNotFound exampleCommand).appends = [] ∧
      (RunE optionsWithoutDigest collaboratorsNotFound exampleCommand).output = [] ∧
      (RunE optionsWithoutDigest collaboratorsNotFound exampleCommand).persisted = [] :=
  ⟨rfl, C6_generation_error optionsWithoutDigest collaboratorsNotFound exampleCommand
    valuesWithoutDigest "unix:///var/run/docker.sock" (.errorString "reference not found")
    ⟨rfl, rfl, rfl, rfl, rfl, rfl, rfl⟩ rfl rfl⟩

/-- C8: in every run that reaches statement generation (the getters and the
construction of the client succeed), the subject resolver is constructed
once, from the client and exactly the repository, the digest and the tag list
the options returned; statement generation is called once, with that resolver
and the environment made of exactly the build context and the runner context
the options returned; and every call of the persister, of which there is one
when generation succeeds, is made with that same environment. -/
theorem C8_resolver_arguments (o : OCIOptions GitHubContext RunnerContext)
    (x : Collaborators Client Subjecter GitHubContext RunnerContext GoContext)
    (cmd : Command GoContext) (v : OptionValues GitHubContext RunnerContext) (cli : Client)
    (hv : o.returns v) (hc : x.NewClientWithOpts = .ok cli) :
    (RunE o x cmd).subjecters = [(cli, v.repo, v.digest, v.tags)] ∧
    (RunE o x cmd).generations
      = [({ Context := v.gh, Runner := v.runner }, cmd.Context,
          x.NewContainerSubjecter cli v.repo v.digest v.tags)] ∧
    (∀ p ∈ (RunE o x cmd).persisted, p.1 = { Context := v.gh, Runner := v.runner }) ∧
    (∀ s, generation x cmd v cli = .ok s →
      (RunE o x cmd).persisted.map (fun p => p.1)
        = [{ Context := v.gh, Runner := v.runner }]) := by
  cases hg : generation x cmd v cli with
  | error e =>
    rw [RunE_of_generation_error o x cmd v cli e hv hc hg]
    simp [Run.subjecters, Run.generations, Run.persisted, OptionValues.env]
  | ok s =>
    rw [RunE_of_generation_ok o x cmd v cli s hv hc hg]
    simp [Run.subjecters, Run.generations, Run.persisted, OptionValues.env]

theorem C8_resolver_arguments_witness :
    (RunE (optionsWith []) (collaboratorsWith none) exampleCommand).subjecters
      = [("unix:///var/run/docker.sock", "registry.example/app", "sha256:abc123...",
          ["v1", "latest"])] ∧
    (RunE (optionsWith []) (collaboratorsWith none) exampleCommand).generations
      = [({ Context := [("repository", "example/repo"), ("run_id", "1")],
            Runner := [("os", "Linux"), ("arch", "amd64")] }, (),
          ("unix:///var/run/docker.sock", "registry.example/app", "sha256:abc123...",
            ["v1", "latest"]))] ∧
    (RunE (optionsWith []) (collaboratorsWith none) exampleCommand).persisted.map
        (fun p => p.1)
      = [{ Context := [("repository", "example/repo"), ("run_id", "1")],
           Runner := [("os", "Linux"), ("arch", "amd64")] }] :=
  ⟨(C8_resolver_arguments (optionsWith []) (collaboratorsWith none) exampleCommand
      (valuesWith []) "unix:///var/run/docker.sock" (optionsWith_returns _) rfl).1,
   (C8_resolver_arguments (optionsWith []) (collaboratorsWith none) exampleCommand
      (valuesWith []) "unix:///var/run/docker.sock" (optionsWith_returns _) rfl).2.1,
   (C8_resolver_arguments (optionsWith []) (collaboratorsWith none) exampleCommand
      (valuesWith []) "unix:///var/run/docker.sock" (optionsWith_returns _) rfl).2.2.2
      exampleStatement rfl⟩


/-- C3: the persister is called if and only if every step before it succeeds
(the seven getters, the construction of the client, statement generation);
whenever one of those steps returns an error the command returns a non-nil
error and the persister is not called; and every run is of one of the two
kinds. -/
theorem C3_persist_iff_success (o : OCIOptions GitHubContext RunnerContext)
    (x : Collaborators Client Subjecter GitHubContext RunnerContext GoContext)
    (cmd : Command GoContext) :
    ((RunE o x cmd).persisted ≠ [] ↔ Succeeds o x cmd) ∧
    (Fails o x cmd → (RunE o x cmd).err ≠ none ∧ (RunE o x cmd).persisted = []) ∧
    (Succeeds o x cmd ∨ Fails o x cmd) := by
  rcases RunE_trichotomy o x cmd with ⟨k, e, hk, _, herr, hsteps⟩ |
    ⟨v, cli, e, hv, hc, hg⟩ | hs
  · have hq := (quiet_of_leading (RunE o x cmd) (k + 1) hsteps).2.2.2.2
    have hf : Fails o x cmd := fails_of_leading_error o x cmd k e hk
    refine ⟨⟨fun h => absurd hq h, fun hs => absurd hf (not_fails_of_succeeds o x cmd hs)⟩,
      fun _ => ⟨by simp [herr], hq⟩, Or.inr hf⟩
  · have hf : Fails o x cmd := by
      unfold Fails
      exact Or.inr (Or.inr (Or.inr (Or.inr (Or.inr (Or.inr (Or.inr (Or.inr
        ⟨v, cli, e, hv, hc, hg⟩)))))))
    have hrun := RunE_of_generation_error o x cmd v cli e hv hc hg
    have hq : (RunE o x cmd).persisted = [] := by simp [hrun, Run.persisted]
    refine ⟨⟨fun h => absurd hq h, fun hs => absurd hf (not_fails_of_succeeds o x cmd hs)⟩,
      fun _ => ⟨by simp [hrun], hq⟩, Or.inr hf⟩
  · have hnf := not_fails_of_succeeds o x cmd hs
    obtain ⟨v, cli, s, hv, hc, hg⟩ := hs
    have hrun := RunE_of_generation_ok o x cmd v cli s hv hc hg
    refine ⟨⟨fun _ => ⟨v, cli, s, hv, hc, hg⟩, fun _ => by simp [hrun, Run.persisted]⟩,
      fun hf => absurd hf hnf, Or.inl ⟨v, cli, s, hv, hc, hg⟩⟩

theorem C3_persist_iff_success_witness :
    (RunE optionsWithoutRepository (collaboratorsWith none) exampleCommand).err ≠ none ∧
    (RunE optionsWithoutRepository (collaboratorsWith none) exampleCommand).persisted = [] ∧
    (RunE (optionsWith []) (collaboratorsWith none) exampleCommand).persisted ≠ [] :=
  ⟨((C3_persist_iff_success optionsWithoutRepository (collaboratorsWith none)
      exampleCommand).2.1 (Or.inr (Or.inr (Or.inr (Or.inr (Or.inl ⟨_, rfl⟩)))))).1,
   ((C3_persist_iff_success optionsWithoutRepository (collaboratorsWith none)
      exampleCommand).2.1 (Or.inr (Or.inr (Or.inr (Or.inr (Or.inl ⟨_, rfl⟩)))))).2,
   (C3_persist_iff_success (optionsWith []) (collaboratorsWith none) exampleCommand).1.2
      ⟨valuesWith [], "unix:///var/run/docker.sock", exampleStatement,
        optionsWith_returns _, rfl, rfl⟩⟩

/-- C10: the eight leading steps run in the fixed order output path, build
context, runner context, extra materials, repository, digest, tags, client
construction.  When the step at position `k` is the first of them to fail,
with error `e`, the command returns exactly `e`, performs exactly the steps up
to and including that one and none after it, and calls neither statement
generation nor the persister.  In every run the steps performed start with a
leading segment of that fixed order, and statement generation and the
persister are each called at most once. -/
theorem C10_first_failure (o : OCIOptions GitHubContext RunnerContext)
    (x : Collaborators Client Subjecter GitHubContext RunnerContext GoContext)
    (cmd : Command GoContext) :
    (∀ k e, (leadingErrors o x)[k]? = some (some e) →
      (∀ j < k, (leadingErrors o x)[j]? = some none) →
      (RunE o x cmd).err = some e ∧ (RunE o x cmd).steps = leadingSteps.take (k + 1) ∧
      (RunE o x cmd).generations = [] ∧ (RunE o x cmd).persisted = []) ∧
    (∃ n, (RunE o x cmd).steps.take 8 = leadingSteps.take n) ∧
    (RunE o x cmd).generations.length ≤ 1 ∧ (RunE o x cmd).persisted.length ≤ 1 := by
  refine ⟨?_, ?_⟩
  · intro k e hk hk2
    obtain ⟨herr, hsteps⟩ := RunE_of_first_error o x cmd k e hk hk2
    have hq := quiet_of_leading (RunE o x cmd) (k + 1) hsteps
    exact ⟨herr, hsteps, hq.2.1, hq.2.2.2.2⟩
  · rcases RunE_trichotomy o x cmd with ⟨k, e, _, _, _, hsteps⟩ |
      ⟨v, cli, e, hv, hc, hg⟩ | ⟨v, cli, s, hv, hc, hg⟩
    · have hq := quiet_of_leading (RunE o x cmd) (k + 1) hsteps
      refine ⟨⟨min 8 (k + 1), ?_⟩, by simp [hq.2.1], by simp [hq.2.2.2.2]⟩
      rw [hsteps, List.take_take]
    · rw [RunE_of_generation_error o x cmd v cli e hv hc hg]
      exact ⟨⟨8, rfl⟩, by simp [Run.generations], by simp [Run.persisted]⟩
    · rw [RunE_of_generation_ok o x cmd v cli s hv hc hg]
      exact ⟨⟨8, rfl⟩, by simp [Run.generations], by simp [Run.persisted]⟩

theorem C10_first_failure_witness :
    (RunE optionsWithoutRepository (collaboratorsWith none) exampleCommand).err
      = some (.errorString "no repository set") ∧
    (RunE optionsWithoutRepository (collaboratorsWith none) exampleCommand).steps
      = [.GetOutputPath, .GetGitHubContext, .GetRunnerContext, .GetExtraMaterials,
          .GetRepository] ∧
    (RunE optionsWithoutRepository (collaboratorsWith none) exampleCommand).generations = [] ∧
    (RunE optionsWithoutRepository (collaboratorsWith none) exampleCommand).persisted = [] :=
  (C10_first_failure optionsWithoutRepository (collaboratorsWith none) exampleCommand).1 4
    (.errorString "no repository set") rfl
    (by intro j hj; interval_cases j <;> rfl)


/-- C9: two runs whose seven option getters return identical results, whose
client constructions return identical results and whose calls of statement
generation return identical results hand the persister the same environment,
the same statement and the same destination path (or both hand it nothing),
whatever the persister and the command context of each run are; hence every
serializer, being a function of the statement, yields identical output in the
two runs. -/
theorem C9_deterministic (o1 o2 : OCIOptions GitHubContext RunnerContext)
    (x1 x2 : Collaborators Client Subjecter GitHubContext RunnerContext GoContext)
    (cmd1 cmd2 : Command GoContext)
    (h1 : o1.GetOutputPath = o2.GetOutputPath)
    (h2 : o1.GetGitHubContext = o2.GetGitHubContext)
    (h3 : o1.GetRunnerContext = o2.GetRunnerContext)
    (h4 : o1.GetExtraMaterials = o2.GetExtraMaterials)
    (h5 : o1.GetRepository = o2.GetRepository)
    (h6 : o1.GetDigest = o2.GetDigest)
    (h7 : o1.GetTags = o2.GetTags)
    (hc : x1.NewClientWithOpts = x2.NewClientWithOpts)
    (hg : ∀ v cli, o1.returns v → x1.NewClientWithOpts = .ok cli →
      generation x1 cmd1 v cli = generation x2 cmd2 v cli) :
    (RunE o1 x1 cmd1).handed = (RunE o2 x2 cmd2).handed ∧
    ∀ (β : Type) (serialize : Statement → β),
      (RunE o1 x1 cmd1).persistedStatements.map serialize
        = (RunE o2 x2 cmd2).persistedStatements.map serialize := by
  have ho := options_ext o1 o2 h1 h2 h3 h4 h5 h6 h7
  subst ho
  have key : (RunE o1 x1 cmd1).handed = (RunE o1 x2 cmd2).handed := by
    rcases RunE_trichotomy o1 x1 cmd1 with ⟨k, e, hk, hk2, _, hsteps⟩ |
      ⟨v, cli, e, hv, hcli, hgen⟩ | ⟨v, cli, s, hv, hcli, hgen⟩
    · have hq1 := (quiet_of_leading (RunE o1 x1 cmd1) (k + 1) hsteps).2.2.2.2
      rw [leadingErrors_congr o1 x1 x2 hc] at hk hk2
      have hq2 := (quiet_of_leading (RunE o1 x2 cmd2) (k + 1)
        (RunE_of_first_error o1 x2 cmd2 k e hk hk2).2).2.2.2.2
      simp [Run.handed, hq1, hq2]
    · have hgen2 := hg v cli hv hcli
      rw [hgen] at hgen2
      rw [RunE_of_generation_error o1 x1 cmd1 v cli e hv hcli hgen,
        RunE_of_generation_error o1 x2 cmd2 v cli e hv (hc ▸ hcli) hgen2.symm]
      simp [Run.handed, Run.persisted]
    · have hgen2 := hg v cli hv hcli
      rw [hgen] at hgen2
      rw [RunE_of_generation_ok o1 x1 cmd1 v cli s hv hcli hgen,
        RunE_of_generation_ok o1 x2 cmd2 v cli s hv (hc ▸ hcli) hgen2.symm]
      simp [Run.handed, Run.persisted]
  refine ⟨key, fun β serialize => ?_⟩
  have hst : (RunE o1 x1 cmd1).persistedStatements = (RunE o1 x2 cmd2).persistedStatements := by
    have := congrArg (List.map fun p => p.2.1) key
    simpa [Run.handed, Run.persistedStatements, List.map_map, Function.comp_def] using this
  rw [hst]

theorem C9_deterministic_witness :
    (RunE (optionsWith [exampleMaterial]) (collaboratorsWith none) exampleCommand).handed
      = (RunE (optionsWith [exampleMaterial])
          (collaboratorsWith (some (.errorString "permission denied"))) exampleCommand).handed ∧
    (RunE (optionsWith [exampleMaterial]) (collaboratorsWith none) exampleCommand).handed
      = [((valuesWith [exampleMaterial]).env,
          withMaterials exampleStatement [exampleMaterial], "provenance.json")] :=
  ⟨(C9_deterministic (optionsWith [exampleMaterial]) (optionsWith [exampleMaterial])
      (collaboratorsWith none) (collaboratorsWith (some (.errorString "permission denied")))
      exampleCommand exampleCommand rfl rfl rfl rfl rfl rfl rfl rfl
      (fun _ _ _ _ => rfl)).1, rfl⟩

/-- C2: with the getter of the extra materials as the spec has it, a batch that
contains a material with an empty uri is refused whole.  The command returns
a non-nil error, no statement is generated, no material of the batch is
appended and the persister is not called; when the three getters before it
succeed, the error returned is the `MaterialError` itself and the run stops
at that getter. -/
theorem C2_invalid_batch_refused (o : OCIOptions GitHubContext RunnerContext)
    (x : Collaborators Client Subjecter GitHubContext RunnerContext GoContext)
    (cmd : Command GoContext) (materialError : GoError) (batch : List Material)
    (hbatch : ∃ m ∈ batch, m.uri = "")
    (hget : o.GetExtraMaterials = options.GetExtraMaterials materialError batch) :
    (RunE o x cmd).err ≠ none ∧ (RunE o x cmd).generations = [] ∧
    (RunE o x cmd).appends = [] ∧ (RunE o x cmd).persisted = [] ∧
    (∀ outputPath gh runner, o.GetOutputPath = .ok outputPath →
      o.GetGitHubContext = .ok gh → o.GetRunnerContext = .ok runner →
      (RunE o x cmd).err = some materialError ∧
      (RunE o x cmd).steps
        = [.GetOutputPath, .GetGitHubContext, .GetRunnerContext, .GetExtraMaterials]) := by
  have he : o.GetExtraMaterials = .error materialError := by
    rw [hget]
    exact GetExtraMaterials_of_empty_uri materialError batch hbatch
  have hnot : ∀ v, ¬ o.returns v := by
    intro v hv
    rw [hv.2.2.2.1] at he
    cases he
  refine ⟨?_, ?_, ?_, ?_, ?_⟩
  · rcases RunE_trichotomy o x cmd with ⟨k, e, _, _, herr, _⟩ |
      ⟨v, _, _, hv, _, _⟩ | ⟨v, _, _, hv, _, _⟩
    · simp [herr]
    · exact absurd hv (hnot v)
    · exact absurd hv (hnot v)
  · rcases RunE_trichotomy o x cmd with ⟨k, e, _, _, _, hsteps⟩ |
      ⟨v, _, _, hv, _, _⟩ | ⟨v, _, _, hv, _, _⟩
    · exact (quiet_of_leading (RunE o x cmd) (k + 1) hsteps).2.1
    · exact absurd hv (hnot v)
    · exact absurd hv (hnot v)
  · rcases RunE_trichotomy o x cmd with ⟨k, e, _, _, _, hsteps⟩ |
      ⟨v, _, _, hv, _, _⟩ | ⟨v, _, _, hv, _, _⟩
    · exact (quiet_of_leading (RunE o x cmd) (k + 1) hsteps).2.2.1
    · exact absurd hv (hnot v)
    · exact absurd hv (hnot v)
  · rcases RunE_trichotomy o x cmd with ⟨k, e, _, _, _, hsteps⟩ |
      ⟨v, _, _, hv, _, _⟩ | ⟨v, _, _, hv, _, _⟩
    · exact (quiet_of_leading (RunE o x cmd) (k + 1) hsteps).2.2.2.2
    · exact absurd hv (hnot v)
    · exact absurd hv (hnot v)
  · intro outputPath gh runner h1 h2 h3
    simp only [RunE, h1, h2, h3, he, and_self]

theorem C2_invalid_batch_refused_witness :
    (∃ m ∈ [exampleMaterial, emptyUriMaterial], m.uri = "") ∧
    (RunE optionsWithEmptyUri (collaboratorsWith none) exampleCommand).err
      = some (.errorString "material with an empty uri") ∧
    (RunE optionsWithEmptyUri (collaboratorsWith none) exampleCommand).steps
      = [.GetOutputPath, .GetGitHubContext, .GetRunnerContext, .GetExtraMaterials] :=
  ⟨⟨emptyUriMaterial, by simp, rfl⟩,
    (C2_invalid_batch_refused optionsWithEmptyUri (collaboratorsWith none) exampleCommand
      (.errorString "material with an empty uri") [exampleMaterial, emptyUriMaterial]
      ⟨emptyUriMaterial, by simp, rfl⟩ rfl).2.2.2.2 _ _ _ rfl rfl rfl⟩

/-- C7, as the code has it: the Docker client is constructed in every run in
which the seven getters succeed, with a digest supplied or not.  When its
construction fails with `e` the command returns exactly `e` and neither
builds the subject resolver nor calls statement generation or the persister;
when it succeeds the subject resolver is built from the client and the
repository, digest and tags the options returned, the digest unaltered. -/
theorem C7_client_always_constructed (o : OCIOptions GitHubContext RunnerContext)
    (x : Collaborators Client Subjecter GitHubContext RunnerContext GoContext)
    (cmd : Command GoContext) (v : OptionValues GitHubContext RunnerContext)
    (hv : o.returns v) :
    Step.NewClientWithOpts ∈ (RunE o x cmd).steps ∧
    (∀ e, x.NewClientWithOpts = .error e →
      (RunE o x cmd).err = some e ∧ (RunE o x cmd).subjecters = [] ∧
      (RunE o x cmd).generations = [] ∧ (RunE o x cmd).persisted = []) ∧
    (∀ cli, x.NewClientWithOpts = .ok cli →
      (RunE o x cmd).subjecters = [(cli, v.repo, v.digest, v.tags)]) := by
  rcases hc : x.NewClientWithOpts with e | cli
  · rw [RunE_of_client_error o x cmd v e hv hc]
    simp [Run.subjecters, Run.generations, Run.persisted]
  · rcases hg : generation x cmd v cli with e | s
    · rw [RunE_of_generation_error o x cmd v cli e hv hc hg]
      simp [Run.subjecters]
    · rw [RunE_of_generation_ok o x cmd v cli s hv hc hg]
      simp [Run.subjecters]

theorem C7_client_always_constructed_witness :
    (RunE (optionsWith []) collaboratorsWithoutClient exampleCommand).err
      = some (.errorString "unable to parse docker host") ∧
    (RunE (optionsWith []) collaboratorsWithoutClient exampleCommand).subjecters = [] ∧
    (RunE (optionsWith []) collaboratorsWithoutClient exampleCommand).generations = [] ∧
    (RunE (optionsWith []) collaboratorsWithoutClient exampleCommand).persisted = [] :=
  (C7_client_always_constructed (optionsWith []) collaboratorsWithoutClient exampleCommand
    (valuesWith []) (optionsWith_returns _)).2.1 _ rfl

/-- C7, as stated, fails: with the digest "sha256:abc123..." supplied by the
options, two runs that differ only in whether the construction of the Docker
client succeeds do not have the same outcome.  When it succeeds the command
returns nil and hands the statement and the path to the persister; when it
fails the command returns the error of the construction and hands the
persister nothing. -/
theorem C7_client_failure_counterexample :
    (optionsWith []).GetDigest = .ok "sha256:abc123..." ∧
    collaboratorsWithoutClient.NewContainerSubjecter
      = (collaboratorsWith none).NewContainerSubjecter ∧
    collaboratorsWithoutClient.GenerateProvenanceStatement
      = (collaboratorsWith none).GenerateProvenanceStatement ∧
    collaboratorsWithoutClient.PersistProvenanceStatement
      = (collaboratorsWith none).PersistProvenanceStatement ∧
    (RunE (optionsWith []) (collaboratorsWith none) exampleCommand).err = none ∧
    (RunE (optionsWith []) (collaboratorsWith none) exampleCommand).handed
      = [((valuesWith []).env, withMaterials exampleStatement [], "provenance.json")] ∧
    (RunE (optionsWith []) collaboratorsWithoutClient exampleCommand).err
      = some (.errorString "unable to parse docker host") ∧
    (RunE (optionsWith []) collaboratorsWithoutClient exampleCommand).handed = [] :=
  ⟨rfl, rfl, rfl, rfl, rfl, rfl, rfl, rfl⟩

end Claims

end SlsaProvenance
